import Mathlib

/-!
Shallow embedding of the pelagornis-dev/oauth authentication and
token-lifecycle engine.

Times are naturals counting milliseconds since the epoch (JS
`Date.getTime()`), except inside the JWT model where, following the
jsonwebtoken library, `iat`/`exp` count seconds.  Fallible TypeScript
methods (those that `throw`) are embedded as `Except`; repository
collections become in-memory lists threaded through the use cases.
-/

deriving instance DecidableEq for Except

namespace OAuthModel

/-- JS `String.prototype.trim`: strip leading and trailing whitespace,
written over the character list so it evaluates by kernel reduction. -/
def jsTrim (s : String) : String :=
  String.mk (((s.data.dropWhile Char.isWhitespace).reverse.dropWhile
    Char.isWhitespace).reverse)

/-- JS `String.prototype.toLowerCase` on the ASCII range. -/
def jsToLower (s : String) : String :=
  String.mk (s.data.map Char.toLower)

/-! ## Shared utilities (src/packages/server/src/shared) -/

/-- `DateUtils.isExpired`: `date.getTime() < Date.now()`. -/
def DateUtils.isExpired (expiresAt now : Nat) : Bool :=
  expiresAt < now

/-- `DateUtils.addTime(date, amount, seconds)`: JS `setSeconds` normalizes
overflow, so the result is `date + amount * 1000` milliseconds. -/
def DateUtils.addTimeSeconds (date amount : Nat) : Nat :=
  date + amount * 1000

/-- `CONFIG.DEFAULT_VERIFICATION_TOKEN_EXPIRY = 24 * 60 * 60 * 1000` (the
source comment reads `// 24 hours`; the value is in milliseconds). -/
def CONFIG.DEFAULT_VERIFICATION_TOKEN_EXPIRY : Nat := 24 * 60 * 60 * 1000

/-- `CONFIG.DEFAULT_RESET_TOKEN_EXPIRY = 60 * 60 * 1000` (the source comment
reads `// 1 hour`; the value is in milliseconds). -/
def CONFIG.DEFAULT_RESET_TOKEN_EXPIRY : Nat := 60 * 60 * 1000

/-- Normalization performed by the `Email` value object constructor
(src/packages/server/src/shared/types/environment.ts lines 118-139):
`this.value = email.toLowerCase().trim()`.  The constructor also throws
unless `ValidationUtils.isValidEmail(email)` holds; at every modelled call
site the same predicate has either already been checked (the use cases
guard with `ValidationUtils.isValidEmail` first) or the check is carried
explicitly by the caller, so only the normalization appears here. -/
def normalizeEmail (s : String) : String :=
  jsTrim (jsToLower s)

/-- The special-character class of the password-strength regex in
`ValidationUtils.isValidPassword`
(src/packages/server/src/shared/utils, ValidationUtils line 32). -/
def passwordSpecialRegexChars : List Char :=
  "!@#$%^&*()_+-=[]\x7b\x7d;\x27:\x22\\|,.<>/?".toList

/-- `ValidationUtils.isValidPassword(...).valid` (ValidationUtils lines
13-40): at least 8 characters and at least one lowercase letter, one
uppercase letter, one digit and one special character; `valid` is true
exactly when no rule failed. -/
def ValidationUtils.isValidPassword (password : String) : Bool :=
  let cs := password.data
  decide (8 ≤ cs.length) &&
  cs.any (fun c => 'a' ≤ c && c ≤ 'z') &&
  cs.any (fun c => 'A' ≤ c && c ≤ 'Z') &&
  cs.any (fun c => '0' ≤ c && c ≤ '9') &&
  cs.any (fun c => passwordSpecialRegexChars.contains c)

/-! ## Domain value objects and entities -/

/-- `TokenValue` value object (opaque random value plus expiry). Its
constructor guard (non-empty value, future expiry) never fires in the
modelled flows, where the value is a fresh random string and the expiry is
`now` plus a positive TTL. -/
structure TokenValue where
  value : String
  expiresAt : Nat
deriving DecidableEq, Repr

/-- `TokenValue.isExpired()`. -/
def TokenValue.isExpired (v : TokenValue) (now : Nat) : Bool :=
  DateUtils.isExpired v.expiresAt now

/-- `TokenType` enum. -/
inductive TokenType where
  | access
  | refresh
  | emailVerification
  | resetPassword
deriving DecidableEq, Repr

/-- Single-use `Token` entity (domain/entities, src/unnamed/part_025). -/
structure Token where
  id : String
  userId : String
  type : TokenType
  value : TokenValue
  used : Bool
deriving DecidableEq, Repr

/-- `Token.markAsUsed()`: throws if already used, throws if expired,
otherwise sets the `used` flag. -/
def Token.markAsUsed (t : Token) (now : Nat) : Except String Token :=
  if t.used then Except.error "Token has already been used"
  else if t.value.isExpired now then Except.error "Cannot use expired token"
  else Except.ok { t with used := true }

/-- `Token.isValid()`: `!this.used && !this.value.isExpired()`. -/
def Token.isValid (t : Token) (now : Nat) : Bool :=
  !t.used && !(t.value.isExpired now)

/-- `VerificationToken` entity (domain/entities/Client.ts lines 283-374). -/
structure VerificationToken where
  id : String
  userId : String
  email : String
  token : TokenValue
  verified : Bool
deriving DecidableEq, Repr

/-- `VerificationToken.verify()`: throws if already verified or expired,
otherwise sets the `verified` flag. -/
def VerificationToken.verify (vt : VerificationToken) (now : Nat) :
    Except String VerificationToken :=
  if vt.verified then Except.error "Token has already been verified"
  else if vt.token.isExpired now then Except.error "Verification token has expired"
  else Except.ok { vt with verified := true }

/-- `VerificationToken.isValid()`: `!this.verified && !this.token.isExpired()`. -/
def VerificationToken.isValid (vt : VerificationToken) (now : Nat) : Bool :=
  !vt.verified && !(vt.token.isExpired now)

/-- `UserStatus` enum. -/
inductive UserStatus where
  | pending
  | active
  | suspended
deriving DecidableEq, Repr

/-- `AuthProvider` enum. -/
inductive AuthProvider where
  | local
  | google
deriving DecidableEq, Repr

/-- `User` entity (domain/entities/Client.ts lines 143-277).  The stored
email is the normalized value carried by the `Email` value object. -/
structure User where
  id : String
  email : String
  password : Option String
  firstName : String
  lastName : String
  status : UserStatus
  provider : AuthProvider
  emailVerified : Bool
  lastLoginAt : Option Nat
deriving DecidableEq, Repr

/-- `User.activate()`: throws on a suspended user, otherwise sets ACTIVE. -/
def User.activate (u : User) : Except String User :=
  if u.status = UserStatus.suspended then
    Except.error "Cannot activate suspended user"
  else Except.ok { u with status := UserStatus.active }

/-- `User.suspend()`: unconditionally sets SUSPENDED. -/
def User.suspend (u : User) : User :=
  { u with status := UserStatus.suspended }

/-- `User.verifyEmail()`: sets the flag, then activates when PENDING. -/
def User.verifyEmail (u : User) : Except String User :=
  let u' := { u with emailVerified := true }
  if u'.status = UserStatus.pending then u'.activate else Except.ok u'

/-- `User.canLogin()`: ACTIVE and email verified. -/
def User.canLogin (u : User) : Bool :=
  u.status = UserStatus.active && u.emailVerified

/-- `User.isOAuthUser()`: provider other than LOCAL. -/
def User.isOAuthUser (u : User) : Bool :=
  u.provider != AuthProvider.local

/-! ## Repository stores

Repositories are modelled as in-memory lists.  `find*` methods are
`List.find?`; `update` replaces the record with the matching id
(`findByIdAndUpdate` in the Mongo adapters, src/unnamed/part_029). -/

def findUserById (users : List User) (id : String) : Option User :=
  users.find? fun u => u.id == id

def findUserByEmail (users : List User) (email : String) : Option User :=
  users.find? fun u => u.email == normalizeEmail email

def updateUser (users : List User) (u : User) : List User :=
  users.map fun x => if x.id == u.id then u else x

def findTokenByValue (tokens : List Token) (v : String) : Option Token :=
  tokens.find? fun t => t.value.value == v

def updateToken (tokens : List Token) (t : Token) : List Token :=
  tokens.map fun x => if x.id == t.id then t else x

def findVTokenByValue (vts : List VerificationToken) (v : String) :
    Option VerificationToken :=
  vts.find? fun vt => vt.token.value == v

def updateVToken (vts : List VerificationToken) (vt : VerificationToken) :
    List VerificationToken :=
  vts.map fun x => if x.id == vt.id then vt else x

/-! ## Single-use token use cases
(src/packages/server/src/app/usecases/user/ResetPasswordUseCase.ts and
VerifyEmailUseCase.ts)

The injected collaborators become explicit arguments: `passOk` stands for
`ValidationUtils.isValidPassword(...).valid`, `hashFn` for
`passwordService.hash`, `validEmail` for `ValidationUtils.isValidEmail`,
`tokenStr`/`uuid` for the freshly generated random token value and record
id, and `emailOk` for whether the outbound email send succeeds (the
`catch (emailError)` branch runs when it is false).  Outbound deliveries
that succeed are collected in an email log `(recipient, token)`. -/

/-- Store shared by the password-reset flows. -/
structure ResetStore where
  users : List User
  tokens : List Token
deriving DecidableEq, Repr

inductive ConfirmResetError where
  | missingToken
  | missingPassword
  | weakPassword
  | invalidToken
  | userNotFound (id : String)
  | internal (msg : String)
deriving DecidableEq, Repr

structure ConfirmResetResponse where
  message : String
  success : Bool
deriving DecidableEq, Repr

/-- `ConfirmResetPasswordUseCase.execute` (ResetPasswordUseCase.ts lines
146-196): validate, find the token by value, reject unless
`token.isValid()` and the type is RESET_PASSWORD, find the owning user,
hash and set the new password, `markAsUsed`, persist both updates. -/
def ConfirmResetPasswordUseCase.execute (store : ResetStore)
    (tokenStr newPassword : String) (now : Nat)
    (passOk : String → Bool) (hashFn : String → String) :
    Except ConfirmResetError (ConfirmResetResponse × ResetStore) :=
  if jsTrim tokenStr = "" then Except.error ConfirmResetError.missingToken
  else if newPassword = "" then Except.error ConfirmResetError.missingPassword
  else if !(passOk newPassword) then Except.error ConfirmResetError.weakPassword
  else
    match findTokenByValue store.tokens tokenStr with
    | none => Except.error ConfirmResetError.invalidToken
    | some t =>
      if !(t.isValid now) || t.type ≠ TokenType.resetPassword then
        Except.error ConfirmResetError.invalidToken
      else
        match findUserById store.users t.userId with
        | none => Except.error (ConfirmResetError.userNotFound t.userId)
        | some u =>
          let u' := { u with password := some (hashFn newPassword) }
          match t.markAsUsed now with
          | Except.error e => Except.error (ConfirmResetError.internal e)
          | Except.ok t' =>
            Except.ok ({ message := "Password has been successfully reset",
                         success := true },
                       { users := updateUser store.users u',
                         tokens := updateToken store.tokens t' })

inductive ResetRequestError where
  | invalidEmail
deriving DecidableEq, Repr

structure ResetRequestResponse where
  message : String
  emailSent : Bool
deriving DecidableEq, Repr

/-- `ResetPasswordUseCase.execute` (issuance, lines 48-134): validate the
email, return the generic message when the user is absent or an OAuth
user, otherwise persist a reset token expiring at
`addTime(now, CONFIG.DEFAULT_RESET_TOKEN_EXPIRY, seconds)` and attempt
the reset email; a failed send is caught and only flips `emailSent`. -/
def ResetPasswordUseCase.execute (store : ResetStore) (emailStr : String)
    (now : Nat) (tokenStr uuid : String) (validEmail : String → Bool)
    (emailOk : Bool) :
    Except ResetRequestError
      (ResetRequestResponse × ResetStore × List (String × String)) :=
  if !(validEmail emailStr) then Except.error ResetRequestError.invalidEmail
  else
    match findUserByEmail store.users emailStr with
    | none =>
      Except.ok ({ message := "If an account with that email exists, a password reset link has been sent.",
                   emailSent := false }, store, [])
    | some u =>
      if u.isOAuthUser then
        Except.ok ({ message := "Password reset is not available for OAuth accounts.",
                     emailSent := false }, store, [])
      else
        let expiresAt := DateUtils.addTimeSeconds now CONFIG.DEFAULT_RESET_TOKEN_EXPIRY
        let t : Token := { id := uuid, userId := u.id,
                           type := TokenType.resetPassword,
                           value := { value := tokenStr, expiresAt }, used := false }
        let store' : ResetStore := { store with tokens := store.tokens ++ [t] }
        if emailOk then
          Except.ok ({ message := "If an account with that email exists, a password reset link has been sent.",
                       emailSent := true }, store', [(u.email, tokenStr)])
        else
          Except.ok ({ message := "If an account with that email exists, a password reset link has been sent.",
                       emailSent := false }, store', [])

/-- Store for the email-verification flow. -/
structure VerifyStore where
  users : List User
  vtokens : List VerificationToken
deriving DecidableEq, Repr

inductive VerifyEmailError where
  | missingToken
  | invalidToken
  | userNotFound (id : String)
  | internal (msg : String)
deriving DecidableEq, Repr

structure VerifyEmailResponse where
  message : String
  userId : String
  email : String
  emailVerified : Bool
  redirectUrl : Option String
deriving DecidableEq, Repr

/-- `VerifyEmailUseCase.execute` (VerifyEmailUseCase.ts lines 19-103): find
the token, reject unless `isValid()`, find the user; when the user is
already verified return success without touching any record; otherwise
`verify()` the token, `verifyEmail()` the user, persist both, and attempt
the welcome email, whose failure is caught and ignored. -/
def VerifyEmailUseCase.execute (store : VerifyStore) (tokenStr : String)
    (now : Nat) (emailOk : Bool) :
    Except VerifyEmailError
      (VerifyEmailResponse × VerifyStore × List (String × String)) :=
  if jsTrim tokenStr = "" then Except.error VerifyEmailError.missingToken
  else
    match findVTokenByValue store.vtokens tokenStr with
    | none => Except.error VerifyEmailError.invalidToken
    | some vt =>
      if !(vt.isValid now) then Except.error VerifyEmailError.invalidToken
      else
        match findUserById store.users vt.userId with
        | none => Except.error (VerifyEmailError.userNotFound vt.userId)
        | some u =>
          if u.emailVerified then
            Except.ok ({ message := "Email has already been verified",
                         userId := u.id, email := u.email,
                         emailVerified := true, redirectUrl := none },
                       store, [])
          else
            match vt.verify now with
            | Except.error e => Except.error (VerifyEmailError.internal e)
            | Except.ok vt' =>
              match u.verifyEmail with
              | Except.error e => Except.error (VerifyEmailError.internal e)
              | Except.ok u' =>
                let store' : VerifyStore :=
                  { users := updateUser store.users u',
                    vtokens := updateVToken store.vtokens vt' }
                let sent := if emailOk then [(u.email, u.firstName)] else []
                Except.ok ({ message := "Email successfully verified",
                             userId := u.id, email := u.email,
                             emailVerified := true,
                             redirectUrl := some "/dashboard" },
                           store', sent)

/-! ## Credential verification (src/unnamed/part_011 LoginUseCase,
src/unnamed/part_027 LocalStrategy)

`compare` stands for the injected `passwordService.compare` (bcrypt);
`validEmail` for `ValidationUtils.isValidEmail`. -/

inductive LoginError where
  | invalidEmailFormat
  | missingPassword
  | userNotFound (email : String)
  | invalidCredentials
  | passwordValidationFailed
  | emailNotVerified
  | accountInactive
deriving DecidableEq, Repr

structure LoginSuccess where
  userId : String
  email : String
deriving DecidableEq, Repr

/-- `LoginUseCase.execute` (part_011 lines 24-117), up to the point where
tokens would be issued: the rejection path is what claims about
authentication failures concern.  `new Email(request.email)` at line 31
re-checks the same `ValidationUtils.isValidEmail` predicate the
`validateRequest` guard just checked, so it cannot throw there;
`new Password(request.password)` at line 47 runs after the user lookup and
the social-only check and throws `Password validation failed` when the
password fails the strength validator, before `compare` is ever called.
Note the distinct errors raised for an unknown email
(`UserNotFoundException`), versus a social-login-only account and a wrong
strength-valid password (both `InvalidCredentialsException`). -/
def LoginUseCase.execute (users : List User) (emailStr passwordStr : String)
    (validEmail : String → Bool) (compare : String → String → Bool) :
    Except LoginError LoginSuccess :=
  if !(validEmail emailStr) then Except.error LoginError.invalidEmailFormat
  else if passwordStr = "" then Except.error LoginError.missingPassword
  else
    match findUserByEmail users emailStr with
    | none => Except.error (LoginError.userNotFound emailStr)
    | some u =>
      match u.password with
      | none => Except.error LoginError.invalidCredentials
      | some hash =>
        if !(ValidationUtils.isValidPassword passwordStr) then
          Except.error LoginError.passwordValidationFailed
        else if !(compare passwordStr hash) then
          Except.error LoginError.invalidCredentials
        else if !u.emailVerified then Except.error LoginError.emailNotVerified
        else if !u.canLogin then Except.error LoginError.accountInactive
        else Except.ok { userId := u.id, email := u.email }

inductive StrategyOutcome where
  | failure (message : String)
  | success (userId : String)
  | error (message : String)
deriving DecidableEq, Repr

/-- `LocalStrategy.authenticate` (part_027 lines 32-110): each rejection is
`done(null, false, info)` carrying a message (`failure`).  The
`new Email(emailString)` and `new Password(passwordString)` constructions
at lines 46-47 run before the user lookup; their throws are plain `Error`s,
not `AuthenticationError`s, so the catch block forwards them as
`done(error)` (`error` here; its payload abbreviates the source message,
whose password variant also lists the individual failed rules).  Note the
distinct message for social-login-only accounts. -/
def LocalStrategy.authenticate (users : List User)
    (emailStr passwordStr : String) (validEmail : String → Bool)
    (compare : String → String → Bool) : StrategyOutcome :=
  if emailStr = "" || passwordStr = "" then
    StrategyOutcome.failure "Email and password are required"
  else if !(validEmail emailStr) then
    StrategyOutcome.error "Invalid email format"
  else if !(ValidationUtils.isValidPassword passwordStr) then
    StrategyOutcome.error "Password validation failed"
  else
    match findUserByEmail users emailStr with
    | none => StrategyOutcome.failure "Invalid email or password"
    | some u =>
      if u.status = UserStatus.suspended then
        StrategyOutcome.failure "Account has been suspended"
      else
        match u.password with
        | none =>
          StrategyOutcome.failure "Account created via social login. Please use social login or reset password."
        | some hash =>
          if !(compare passwordStr hash) then
            StrategyOutcome.failure "Invalid email or password"
          else if u.status = UserStatus.pending && !u.emailVerified then
            StrategyOutcome.failure "Please verify your email address before logging in"
          else StrategyOutcome.success u.id

/-! ## Signed tokens (src/packages/server/src/infrastructure/auth/jwt/JwtTokenService.ts)

Modelled from the spec: the jsonwebtoken library itself is an external
collaborator, so `jwtSign`/`jwtVerify` follow spec section 4.2: sign embeds
subject, kind, issuer, audience, token-id, issued-at and expiry; verify
fails as invalid on a signature/issuer/audience mismatch and as expired
past expiry (strict comparison, no clock skew), and is a pure function of
the token and the clock.  The `secret` field stands for the HMAC
signature: verification with secret `s` succeeds exactly when the token
was signed with `s`.  `iat`, `exp` and TTLs are seconds here, as in the
library. -/

structure TokenPayload where
  sub : String
  email : String
  type : String
deriving DecidableEq, Repr

structure SignedToken where
  payload : TokenPayload
  jti : String
  iss : String
  aud : String
  iat : Nat
  exp : Nat
  secret : String
deriving DecidableEq, Repr

inductive JwtError where
  | invalidToken
  | tokenExpired
deriving DecidableEq, Repr

/-- Modelled from the spec: `jwt.sign(payload, secret, { expiresIn, issuer,
audience })`. -/
def jwtSign (p : TokenPayload) (jti iss aud secret : String)
    (now ttl : Nat) : SignedToken :=
  { payload := p, jti, iss, aud, iat := now, exp := now + ttl, secret }

/-- Modelled from the spec: `jwt.verify(token, secret, { issuer, audience })`,
returning `TokenExpiredError` when `now >= exp` and `JsonWebTokenError`
(invalid) on any signature, issuer or audience mismatch. -/
def jwtVerify (t : SignedToken) (secret iss aud : String) (now : Nat) :
    Except JwtError TokenPayload :=
  if t.secret ≠ secret then Except.error JwtError.invalidToken
  else if t.exp ≤ now then Except.error JwtError.tokenExpired
  else if t.iss ≠ iss then Except.error JwtError.invalidToken
  else if t.aud ≠ aud then Except.error JwtError.invalidToken
  else Except.ok t.payload

/-- `JwtTokenService.generateAccessToken`: forces `type := "access"` and
signs with issuer `pelagornis-oauth`, audience `pelagornis-app`. -/
def JwtTokenService.generateAccessToken (secret : String) (p : TokenPayload)
    (jti : String) (now ttl : Nat) : SignedToken :=
  jwtSign { p with type := "access" } jti "pelagornis-oauth" "pelagornis-app"
    secret now ttl

/-- `JwtTokenService.generateRefreshToken`: forces `type := "refresh"`. -/
def JwtTokenService.generateRefreshToken (secret : String) (p : TokenPayload)
    (jti : String) (now ttl : Nat) : SignedToken :=
  jwtSign { p with type := "refresh" } jti "pelagornis-oauth" "pelagornis-app"
    secret now ttl

/-- `JwtTokenService.verifyToken`: verifies against the service secret and
the fixed issuer/audience pair.  A pure function of the token and clock. -/
def JwtTokenService.verifyToken (secret : String) (t : SignedToken)
    (now : Nat) : Except JwtError TokenPayload :=
  jwtVerify t secret "pelagornis-oauth" "pelagornis-app" now

/-! ## Refresh-token rotation -/

inductive RefreshError where
  | invalidToken
deriving DecidableEq, Repr

structure RefreshResponse where
  accessToken : SignedToken
  refreshToken : SignedToken
  expiresIn : Nat
  tokenType : String
deriving DecidableEq, Repr

/-- `RefreshTokenUseCase.execute` (RefreshTokenUseCase.ts lines 18-84):
verify the presented JWT, require `type === refresh`, load the user,
require `canLogin()`, then sign a fresh access/refresh pair.  Every error
is rethrown as `InvalidTokenException(refresh)` by the outer catch.
The use case consults no token store: no record is looked up, marked used
or deleted. -/
def RefreshTokenUseCase.execute (users : List User) (secret : String)
    (tok : SignedToken) (now : Nat) (jtiA jtiR : String) (ttlA ttlR : Nat) :
    Except RefreshError RefreshResponse :=
  match JwtTokenService.verifyToken secret tok now with
  | Except.error _ => Except.error RefreshError.invalidToken
  | Except.ok payload =>
    if payload.type ≠ "refresh" then Except.error RefreshError.invalidToken
    else
      match findUserById users payload.sub with
      | none => Except.error RefreshError.invalidToken
      | some u =>
        if !u.canLogin then Except.error RefreshError.invalidToken
        else
          let base : TokenPayload := { sub := u.id, email := u.email, type := "access" }
          Except.ok
            { accessToken := JwtTokenService.generateAccessToken secret base jtiA now ttlA,
              refreshToken := JwtTokenService.generateRefreshToken secret
                { base with type := "refresh" } jtiR now ttlR,
              expiresIn := 3600, tokenType := "Bearer" }

/-- `TokenData` record persisted by the legacy `AuthUseCase` flow
(domain/usecases/AuthUseCase.ts); times in milliseconds. -/
structure TokenData where
  accessToken : String
  accessTokenExpiresAt : Nat
  refreshToken : String
  refreshTokenExpiresAt : Nat
  clientId : String
  userId : String
  scope : Option String
deriving DecidableEq, Repr

def findByRefreshToken (l : List TokenData) (v : String) : Option TokenData :=
  l.find? fun td => td.refreshToken == v

def deleteByAccessToken (l : List TokenData) (v : String) : List TokenData :=
  l.filter fun td => td.accessToken != v

/-- `AuthUseCase.generateTokens` (lines 34-61): fresh JWT access token and
uuid refresh value, access expiry now + 1h, refresh expiry now + 30d,
record persisted via `tokenRepository.create`.  The fresh credential
strings are passed in for the random uuid/JWT generation. -/
def AuthUseCase.generateTokens (store : List TokenData)
    (clientId userId : String) (scope : Option String) (now : Nat)
    (newAccess newRefresh : String) : TokenData × List TokenData :=
  let td : TokenData :=
    { accessToken := newAccess,
      accessTokenExpiresAt := now + 60 * 60 * 1000,
      refreshToken := newRefresh,
      refreshTokenExpiresAt := now + 30 * 24 * 60 * 60 * 1000,
      clientId, userId, scope }
  (td, store ++ [td])

/-- `AuthUseCase.refreshToken` (lines 74-85): look up the presented refresh
value, return null when absent or past expiry (`new Date() >
token.refreshTokenExpiresAt`), delete the old record by its access token,
then issue a fresh pair. -/
def AuthUseCase.refreshToken (store : List TokenData) (presented : String)
    (now : Nat) (newAccess newRefresh : String) :
    Option (TokenData × List TokenData) :=
  match findByRefreshToken store presented with
  | none => none
  | some token =>
    if token.refreshTokenExpiresAt < now then none
    else
      let store' := deleteByAccessToken store token.accessToken
      some (AuthUseCase.generateTokens store' token.clientId token.userId
        token.scope now newAccess newRefresh)

/-! ## Rate limiting
(src/packages/server/src/presentation/middlewares/RateLimitMiddleware.ts) -/

structure RateRecord where
  count : Nat
  resetTime : Nat
deriving DecidableEq, Repr

inductive RateOutcome where
  | admitted (count : Nat)
  | rejected (retryAfter : Int)
deriving DecidableEq, Repr

def lookupRecord (store : List (String × RateRecord)) (key : String) :
    Option RateRecord :=
  (store.find? fun kr => kr.1 == key).map Prod.snd

def insertRecord (store : List (String × RateRecord)) (key : String)
    (r : RateRecord) : List (String × RateRecord) :=
  if (store.find? fun kr => kr.1 == key).isSome then
    store.map fun kr => if kr.1 == key then (key, r) else kr
  else store ++ [(key, r)]

/-- JS `Math.ceil(num / den)` for an integer numerator and positive integer
denominator. -/
def jsCeilDiv (num : Int) (den : Nat) : Int :=
  -((-num).fdiv den)

/-- One request through the middleware returned by
`RateLimitMiddleware.createRateLimit` (lines 43-128), without the
skip-successful/failed response hook: refresh the record only when
`record.resetTime <= now - windowMs`, increment, reject with
`Retry-After = ceil((resetTime - now)/1000)` once `count > maxRequests`. -/
def RateLimitMiddleware.check (store : List (String × RateRecord))
    (key : String) (windowMs maxRequests : Nat) (now : Nat) :
    RateOutcome × List (String × RateRecord) :=
  let windowStart : Int := (now : Int) - (windowMs : Int)
  let r0 : RateRecord :=
    match lookupRecord store key with
    | some r =>
      if (r.resetTime : Int) ≤ windowStart then
        { count := 0, resetTime := now + windowMs }
      else r
    | none => { count := 0, resetTime := now + windowMs }
  let r1 : RateRecord := { r0 with count := r0.count + 1 }
  let store' := insertRecord store key r1
  if maxRequests < r1.count then
    (RateOutcome.rejected (jsCeilDiv ((r1.resetTime : Int) - (now : Int)) 1000),
     store')
  else (RateOutcome.admitted r1.count, store')

/-- `RateLimitMiddleware.cleanupExpiredEntries` (lines 165-184): discard
every record with `resetTime <= now`. -/
def RateLimitMiddleware.cleanupExpiredEntries
    (store : List (String × RateRecord)) (now : Nat) :
    List (String × RateRecord) :=
  store.filter fun kr => decide (now < kr.2.resetTime)

/-! ## Random password generation
(`CryptoUtils.generatePassword`, src/packages/server/src/shared/utils) -/

def upperChars : List Char := "ABCDEFGHIJKLMNOPQRSTUVWXYZ".toList

def lowerChars : List Char := "abcdefghijklmnopqrstuvwxyz".toList

def digitChars : List Char := "0123456789".toList

def specialChars : List Char := "!@#$%^&*".toList

def passwordCharset : List Char :=
  "abcdefghijklmnopqrstuvwxyzABCDEFGHIJKLMNOPQRSTUVWXYZ0123456789!@#$%^&*".toList

/-- `chars[crypto.randomInt(0, chars.length)]`: the draw is an arbitrary
natural reduced into range. -/
def pickChar (chars : List Char) (r : Nat) : Char :=
  if h : chars.length = 0 then 'A'
  else chars.get ⟨r % chars.length, Nat.mod_lt _ (Nat.pos_of_ne_zero h)⟩

/-- `CryptoUtils.generatePassword` before the final shuffle: one draw from
each required class, then draws from the full charset while
`i < length` starting at `i = 4`.  The trailing
`sort(() => crypto.randomInt(-1, 2))` is an arbitrary permutation of this
list, so the claims are stated over every permutation of it. -/
def CryptoUtils.generatePasswordBase (length : Nat) (draws : Nat → Nat) :
    List Char :=
  [pickChar upperChars (draws 0), pickChar lowerChars (draws 1),
   pickChar digitChars (draws 2), pickChar specialChars (draws 3)] ++
  (List.range (length - 4)).map fun i => pickChar passwordCharset (draws (4 + i))

/-! ## Account-status operations

The public mutators of the `User` entity, as one operation type, to state
state-machine claims over everything the core can do to an account. -/

inductive UserOp where
  | activate
  | suspend
  | verifyEmail
  | updateLastLogin (now : Nat)
  | updatePassword (hash : String)
  | updateProfile (firstName lastName : String)
deriving DecidableEq, Repr

/-- Dispatch a `User` mutator; `updateLastLogin`, `updatePassword` and
`updateProfile` never throw in the source and touch no status field. -/
def User.applyOp (u : User) (op : UserOp) : Except String User :=
  match op with
  | UserOp.activate => u.activate
  | UserOp.suspend => Except.ok u.suspend
  | UserOp.verifyEmail => u.verifyEmail
  | UserOp.updateLastLogin n => Except.ok { u with lastLoginAt := some n }
  | UserOp.updatePassword h => Except.ok { u with password := some h }
  | UserOp.updateProfile f l => Except.ok { u with firstName := f, lastName := l }

/-! ## Concrete fixtures used by witnesses and counterexamples -/

def demoLocalActiveUser : User :=
  { id := "u1", email := "a@b.com", password := some "oldhash",
    firstName := "Ann", lastName := "Lee", status := UserStatus.active,
    provider := AuthProvider.local, emailVerified := true, lastLoginAt := none }

def demoSocialUser : User :=
  { id := "u2", email := "s@b.com", password := none,
    firstName := "Sol", lastName := "Kim", status := UserStatus.active,
    provider := AuthProvider.google, emailVerified := true, lastLoginAt := none }

def demoPendingUser : User :=
  { id := "u3", email := "p@b.com", password := some "phash",
    firstName := "Pat", lastName := "Doe", status := UserStatus.pending,
    provider := AuthProvider.local, emailVerified := false, lastLoginAt := none }

def demoSuspendedUser : User :=
  { id := "u4", email := "x@b.com", password := some "xhash",
    firstName := "Sam", lastName := "Roe", status := UserStatus.suspended,
    provider := AuthProvider.local, emailVerified := false, lastLoginAt := none }

def demoResetToken : Token :=
  { id := "t1", userId := "u1", type := TokenType.resetPassword,
    value := { value := "tok1", expiresAt := 100 }, used := false }

def demoResetStore : ResetStore :=
  { users := [demoLocalActiveUser], tokens := [demoResetToken] }

/-- The store left behind by a successful confirm-reset on
`demoResetStore`. -/
def demoConsumedStore : ResetStore :=
  { users := [{ demoLocalActiveUser with password := some "Good1pw" }],
    tokens := [{ demoResetToken with used := true }] }

/-- Expiry computed for a fresh email-verification token at
RegisterUseCase.ts line 66:
`DateUtils.addTime(new Date(), CONFIG.DEFAULT_VERIFICATION_TOKEN_EXPIRY, seconds)`. -/
def RegisterUseCase.verificationTokenExpiresAt (now : Nat) : Nat :=
  DateUtils.addTimeSeconds now CONFIG.DEFAULT_VERIFICATION_TOKEN_EXPIRY

def demoVerifVToken : VerificationToken :=
  { id := "v1", userId := "u1", email := "a@b.com",
    token := { value := "vtok1", expiresAt := 100 }, verified := false }

def demoVerifyStore : VerifyStore :=
  { users := [demoLocalActiveUser], vtokens := [demoVerifVToken] }

/-- A refresh JWT as issued by the login flow: signed with secret `sec`,
`type = refresh`, issued at 0, expiring at 1000 (seconds). -/
def demoRefreshTok : SignedToken :=
  JwtTokenService.generateRefreshToken "sec"
    { sub := "u1", email := "a@b.com", type := "refresh" } "j0" 0 1000

def demoRateStore : List (String × RateRecord) :=
  [("k", { count := 5, resetTime := 1000 })]

/-- The account-status state machine exactly as the spec words it: the only
admitted status changes are pending to active and active to suspended.
Stated from the spec for comparison with the behaviour of `User.applyOp`,
which is translated from the source. -/
def statusMachineOnlySpec : Prop :=
  ∀ (u : User) (op : UserOp) (u' : User),
    u.applyOp op = Except.ok u' → u'.status ≠ u.status →
    (u.status = UserStatus.pending ∧ u'.status = UserStatus.active) ∨
    (u.status = UserStatus.active ∧ u'.status = UserStatus.suspended)

/-! ## Theorems -/

/-- If `find?` locates `t` in `l`, every element is either left unchanged or
replaced by `t'`, `t` itself is replaced by `t'`, and `t'` still satisfies
the predicate, then `find?` on the rewritten list locates `t'`.  This
captures "look up a record, update it in place, look it up again". -/
theorem find?_map_update {α : Type} (l : List α) (p : α → Bool) (f : α → α)
    (t t' : α) (hfind : l.find? p = some t) (hft : f t = t')
    (hrepl : ∀ x, f x = x ∨ f x = t') (hp : p t' = true) :
    (l.map f).find? p = some t' := by
  induction l with
  | nil => simp at hfind
  | cons a as ih =>
    by_cases ha : p a = true
    · rw [List.find?_cons_of_pos _ ha] at hfind
      injection hfind with h
      subst h
      simp only [List.map_cons]
      rw [hft]
      exact List.find?_cons_of_pos _ hp
    · have ha' : p a = false := by
        cases h : p a
        · rfl
        · exact absurd h ha
      rw [List.find?_cons_of_neg _ (by simp [ha'])] at hfind
      simp only [List.map_cons]
      rcases hrepl a with h | h
      · rw [h, List.find?_cons_of_neg _ (by simp [ha'])]
        exact ih hfind
      · rw [h]
        exact List.find?_cons_of_pos _ hp

/-- `Token.markAsUsed` succeeds only by setting the flag. -/
theorem Token.markAsUsed_ok_eq {t : Token} {now : Nat} {t' : Token}
    (h : t.markAsUsed now = Except.ok t') : t' = { t with used := true } := by
  unfold Token.markAsUsed at h
  split at h
  · exact Except.noConfusion h
  · split at h
    · exact Except.noConfusion h
    · injection h with h
      exact h.symm

/-- A successful confirm-reset found some token by value and wrote it back
with the `used` flag set. -/
theorem confirm_reset_consumes {store : ResetStore} {tokenStr pw : String}
    {now : Nat} {passOk : String → Bool} {hashFn : String → String}
    {r : ConfirmResetResponse} {store' : ResetStore}
    (h : ConfirmResetPasswordUseCase.execute store tokenStr pw now passOk hashFn
      = Except.ok (r, store')) :
    ∃ t : Token, findTokenByValue store.tokens tokenStr = some t ∧
      store'.tokens = updateToken store.tokens { t with used := true } := by
  unfold ConfirmResetPasswordUseCase.execute at h
  split at h
  · exact Except.noConfusion h
  split at h
  · exact Except.noConfusion h
  split at h
  · exact Except.noConfusion h
  split at h
  · exact Except.noConfusion h
  next t hfind =>
  split at h
  · exact Except.noConfusion h
  split at h
  · exact Except.noConfusion h
  next u huser =>
  split at h
  next e hmark => exact Except.noConfusion h
  next tMarked hmark =>
  refine ⟨t, hfind, ?_⟩
  have hstore : updateToken store.tokens tMarked = store'.tokens :=
    congrArg (fun p => p.2.tokens) (Except.ok.inj h)
  rw [← hstore, Token.markAsUsed_ok_eq hmark]

/-- After the in-place update that marks the found token used, looking the
same value up again finds the used token. -/
theorem findTokenByValue_after_update {tokens : List Token}
    {tokenStr : String} {t : Token}
    (hfind : findTokenByValue tokens tokenStr = some t) :
    findTokenByValue (updateToken tokens { t with used := true }) tokenStr
      = some { t with used := true } := by
  simp only [findTokenByValue, updateToken] at hfind ⊢
  have hp := List.find?_some hfind
  exact find?_map_update tokens _ _ t { t with used := true } hfind
    (by simp) (fun x => by by_cases hx : (x.id == t.id) = true <;> simp [hx])
    (by simpa using hp)

/-- C2: a single-use token is usable iff unused and unexpired; marking it
used is terminal and irreversible (`markAsUsed` on a used token throws and
the flag stays true, and a successful `markAsUsed` always sets the flag);
and once `ConfirmResetPasswordUseCase.execute` has consumed a token, a
second call presenting the same token value fails, whatever the clock,
password, password policy or hash function of the second call. -/
theorem token_consume_at_most_once :
    (∀ (t : Token) (now : Nat),
        t.isValid now = true ↔ (t.used = false ∧ ¬ (t.value.expiresAt < now))) ∧
    (∀ (t : Token) (now : Nat), t.used = true →
        t.markAsUsed now = Except.error "Token has already been used") ∧
    (∀ (t : Token) (now : Nat) (t' : Token),
        t.markAsUsed now = Except.ok t' → t'.used = true) ∧
    (∀ (store : ResetStore) (tokenStr pw : String) (now : Nat)
        (passOk : String → Bool) (hashFn : String → String)
        (r : ConfirmResetResponse) (store' : ResetStore),
        ConfirmResetPasswordUseCase.execute store tokenStr pw now passOk hashFn
          = Except.ok (r, store') →
        ∀ (pw2 : String) (now2 : Nat) (passOk2 : String → Bool)
          (hashFn2 : String → String),
          (ConfirmResetPasswordUseCase.execute store' tokenStr pw2 now2
            passOk2 hashFn2).isOk = false) := by
  refine ⟨?_, ?_, ?_, ?_⟩
  · intro t now
    simp [Token.isValid, TokenValue.isExpired, DateUtils.isExpired]
  · intro t now h
    simp [Token.markAsUsed, h]
  · intro t now t' h
    rw [Token.markAsUsed_ok_eq h]
  · intro store tokenStr pw now passOk hashFn r store' h pw2 now2 passOk2 hashFn2
    obtain ⟨t, hfind, htokens⟩ := confirm_reset_consumes h
    unfold ConfirmResetPasswordUseCase.execute
    split
    · rfl
    split
    · rfl
    split
    · rfl
    rw [htokens, findTokenByValue_after_update hfind]
    simp [Token.isValid, Except.isOk, Except.toBool]

/-- C2 witness: a concrete reset token is consumed on the first confirm
call and the second call on the resulting store is rejected. -/
theorem token_consume_at_most_once_witness :
    ConfirmResetPasswordUseCase.execute demoResetStore "tok1" "Good1pw" 50
        (fun _ => true) (fun s => s) =
      Except.ok ({ message := "Password has been successfully reset",
                   success := true }, demoConsumedStore) ∧
    (ConfirmResetPasswordUseCase.execute demoConsumedStore "tok1" "Good1pw" 60
        (fun _ => true) (fun s => s)).isOk = false :=
  ⟨by decide,
   token_consume_at_most_once.2.2.2 demoResetStore "tok1" "Good1pw" 50
     (fun _ => true) (fun s => s)
     { message := "Password has been successfully reset", success := true }
     demoConsumedStore (by decide) "Good1pw" 60 (fun _ => true) (fun s => s)⟩

/-- C10: presenting a still-valid verification token for an account whose
email is already verified returns the already-verified success response and
leaves the whole store (token included) untouched, so a later presentation
of the same token value while the token is still valid succeeds again. -/
theorem verify_already_verified_noop :
    ∀ (store : VerifyStore) (tokenStr : String) (now : Nat) (emailOk : Bool)
      (vt : VerificationToken) (u : User),
      jsTrim tokenStr ≠ "" →
      findVTokenByValue store.vtokens tokenStr = some vt →
      vt.isValid now = true →
      findUserById store.users vt.userId = some u →
      u.emailVerified = true →
      VerifyEmailUseCase.execute store tokenStr now emailOk =
        Except.ok ({ message := "Email has already been verified",
                     userId := u.id, email := u.email, emailVerified := true,
                     redirectUrl := none }, store, []) ∧
      (∀ (now2 : Nat) (emailOk2 : Bool), vt.isValid now2 = true →
        VerifyEmailUseCase.execute store tokenStr now2 emailOk2 =
          Except.ok ({ message := "Email has already been verified",
                       userId := u.id, email := u.email, emailVerified := true,
                       redirectUrl := none }, store, [])) := by
  intro store tokenStr now emailOk vt u htrim hfind hvalid huser hverified
  constructor
  · simp [VerifyEmailUseCase.execute, htrim, hfind, hvalid, huser, hverified]
  · intro now2 emailOk2 hvalid2
    simp [VerifyEmailUseCase.execute, htrim, hfind, hvalid2, huser, hverified]

/-- C10 witness: a concrete valid verification token for the
already-verified `demoLocalActiveUser` succeeds and leaves the store
untouched, at time 50 and again at time 60. -/
theorem verify_already_verified_noop_witness :
    VerifyEmailUseCase.execute demoVerifyStore "vtok1" 50 true =
      Except.ok ({ message := "Email has already been verified",
                   userId := "u1", email := "a@b.com", emailVerified := true,
                   redirectUrl := none }, demoVerifyStore, []) ∧
    VerifyEmailUseCase.execute demoVerifyStore "vtok1" 60 false =
      Except.ok ({ message := "Email has already been verified",
                   userId := "u1", email := "a@b.com", emailVerified := true,
                   redirectUrl := none }, demoVerifyStore, []) := by
  have h := verify_already_verified_noop demoVerifyStore "vtok1" 50 true
    demoVerifVToken demoLocalActiveUser (by decide) (by decide) (by decide)
    (by decide) (by decide)
  exact ⟨h.1, h.2 60 false (by decide)⟩

/-- C8: a failed outbound email is caught: for the email-verification use
case the response and the persisted store are identical whether the welcome
email succeeds or fails, and for the password-reset issuance use case the
response message and the persisted store (including the already-saved reset
token) are identical whether the reset email succeeds or fails; in both
cases the operation succeeds or fails identically. -/
theorem email_failure_does_not_roll_back :
    (∀ (store : VerifyStore) (tokenStr : String) (now : Nat),
      (VerifyEmailUseCase.execute store tokenStr now false).map
          (fun x => (x.1, x.2.1)) =
        (VerifyEmailUseCase.execute store tokenStr now true).map
          (fun x => (x.1, x.2.1))) ∧
    (∀ (store : VerifyStore) (tokenStr : String) (now : Nat),
      (VerifyEmailUseCase.execute store tokenStr now false).isOk =
        (VerifyEmailUseCase.execute store tokenStr now true).isOk) ∧
    (∀ (store : ResetStore) (emailStr : String) (now : Nat)
      (tokenStr uuid : String) (validEmail : String → Bool),
      (ResetPasswordUseCase.execute store emailStr now tokenStr uuid validEmail
          false).map (fun x => (x.1.message, x.2.1)) =
        (ResetPasswordUseCase.execute store emailStr now tokenStr uuid
          validEmail true).map (fun x => (x.1.message, x.2.1))) ∧
    (∀ (store : ResetStore) (emailStr : String) (now : Nat)
      (tokenStr uuid : String) (validEmail : String → Bool),
      (ResetPasswordUseCase.execute store emailStr now tokenStr uuid validEmail
          false).isOk =
        (ResetPasswordUseCase.execute store emailStr now tokenStr uuid
          validEmail true).isOk) := by
  refine ⟨?_, ?_, ?_, ?_⟩
  · intro store tokenStr now
    unfold VerifyEmailUseCase.execute
    repeat' first | rfl | split
  · intro store tokenStr now
    unfold VerifyEmailUseCase.execute
    repeat' first | rfl | split
  · intro store emailStr now tokenStr uuid validEmail
    unfold ResetPasswordUseCase.execute
    repeat' first | rfl | split
  · intro store emailStr now tokenStr uuid validEmail
    unfold ResetPasswordUseCase.execute
    repeat' first | rfl | split

/-- C6 evaluation: issuing a reset token at time 0 persists a token whose
expiry is 3600000000 ms (1000 hours) after issuance, not the 3600000 ms
(1 hour) the configuration comment announces, because
`CONFIG.DEFAULT_RESET_TOKEN_EXPIRY` is a millisecond count fed to
`DateUtils.addTime(..., seconds)`; the verification-token expiry computed
by the registration flow is likewise 86400000000 ms (1000 days), not 24
hours. -/
theorem token_ttl_unit_mismatch :
    ResetPasswordUseCase.execute demoResetStore "a@b.com" 0 "tokR" "idR"
        (fun _ => true) true =
      Except.ok ({ message := "If an account with that email exists, a password reset link has been sent.",
                   emailSent := true },
                 { users := [demoLocalActiveUser],
                   tokens := [demoResetToken,
                     { id := "idR", userId := "u1",
                       type := TokenType.resetPassword,
                       value := { value := "tokR", expiresAt := 3600000000 },
                       used := false }] },
                 [("a@b.com", "tokR")]) ∧
    (3600000000 : Nat) ≠ 0 + 60 * 60 * 1000 ∧
    RegisterUseCase.verificationTokenExpiresAt 0 = 86400000000 ∧
    (86400000000 : Nat) ≠ 0 + 24 * 60 * 60 * 1000 := by
  refine ⟨by decide, by decide, by decide, by decide⟩

/-- C3 counterexample: failing login inputs do not all share one rejection
value.  The password used, `Str0ng!Pass`, passes
`ValidationUtils.isValidPassword`, so the source reaches the modelled
branches rather than throwing at the `new Password` construction.  In
`LoginUseCase` an unknown email raises `UserNotFoundException` while a
social-login-only account raises `InvalidCredentialsException`, and in
`LocalStrategy` a social-login-only account gets a dedicated message
different from the generic one used for a wrong password. -/
theorem login_rejections_differ :
    ValidationUtils.isValidPassword "Str0ng!Pass" = true ∧
    LoginUseCase.execute [demoSocialUser] "zz@b.com" "Str0ng!Pass"
        (fun _ => true) (fun p h => p == h) =
      Except.error (LoginError.userNotFound "zz@b.com") ∧
    LoginUseCase.execute [demoSocialUser] "s@b.com" "Str0ng!Pass"
        (fun _ => true) (fun p h => p == h) =
      Except.error LoginError.invalidCredentials ∧
    LoginError.userNotFound "zz@b.com" ≠ LoginError.invalidCredentials ∧
    LocalStrategy.authenticate [demoSocialUser, demoLocalActiveUser] "s@b.com"
        "Str0ng!Pass" (fun _ => true) (fun p h => p == h) =
      StrategyOutcome.failure "Account created via social login. Please use social login or reset password." ∧
    LocalStrategy.authenticate [demoSocialUser, demoLocalActiveUser] "a@b.com"
        "Str0ng!Pass" (fun _ => true) (fun p h => p == h) =
      StrategyOutcome.failure "Invalid email or password" ∧
    ("Account created via social login. Please use social login or reset password." : String)
      ≠ "Invalid email or password" := by
  refine ⟨by decide, by decide, by decide, by decide, by decide, by decide,
    by decide⟩

/-- C3 amended: in `LoginUseCase` the social-login-only failure and a
wrong password that passes the strength validator return one identical
rejection value (`InvalidCredentialsException`), but an unknown email
returns the distinct `UserNotFoundException` carrying the attempted email,
and a strength-failing password on a password-bearing account raises yet
another distinct error (the `Password validation failed` throw of the
`Password` constructor), so the rejection distinguishes which check
failed. -/
theorem login_rejections_amended :
    ∀ (users : List User) (emailStr pw : String) (validEmail : String → Bool)
      (compare : String → String → Bool),
      validEmail emailStr = true → pw ≠ "" →
      (findUserByEmail users emailStr = none →
        LoginUseCase.execute users emailStr pw validEmail compare =
          Except.error (LoginError.userNotFound emailStr)) ∧
      (∀ u, findUserByEmail users emailStr = some u → u.password = none →
        LoginUseCase.execute users emailStr pw validEmail compare =
          Except.error LoginError.invalidCredentials) ∧
      (∀ u h, findUserByEmail users emailStr = some u → u.password = some h →
        ValidationUtils.isValidPassword pw = true → compare pw h = false →
        LoginUseCase.execute users emailStr pw validEmail compare =
          Except.error LoginError.invalidCredentials) ∧
      (∀ u h, findUserByEmail users emailStr = some u → u.password = some h →
        ValidationUtils.isValidPassword pw = false →
        LoginUseCase.execute users emailStr pw validEmail compare =
          Except.error LoginError.passwordValidationFailed) := by
  intro users emailStr pw validEmail compare hvalid hpw
  refine ⟨?_, ?_, ?_, ?_⟩
  · intro hnone
    simp [LoginUseCase.execute, hvalid, hpw, hnone]
  · intro u hfind hnopass
    simp [LoginUseCase.execute, hvalid, hpw, hfind, hnopass]
  · intro u h hfind hpass hstrong hcmp
    simp [LoginUseCase.execute, hvalid, hpw, hfind, hpass, hstrong, hcmp]
  · intro u h hfind hpass hweak
    simp [LoginUseCase.execute, hvalid, hpw, hfind, hpass, hweak]

/-- C3 amended witness: the four rejection branches at concrete inputs,
with a password accepted by the strength validator for the first three and
a strength-failing one for the fourth. -/
theorem login_rejections_amended_witness :
    LoginUseCase.execute [demoSocialUser, demoLocalActiveUser] "zz@b.com"
        "Str0ng!Pass" (fun _ => true) (fun p h => p == h) =
      Except.error (LoginError.userNotFound "zz@b.com") ∧
    LoginUseCase.execute [demoSocialUser, demoLocalActiveUser] "s@b.com"
        "Str0ng!Pass" (fun _ => true) (fun p h => p == h) =
      Except.error LoginError.invalidCredentials ∧
    LoginUseCase.execute [demoSocialUser, demoLocalActiveUser] "a@b.com"
        "Str0ng!Pass" (fun _ => true) (fun p h => p == h) =
      Except.error LoginError.invalidCredentials ∧
    LoginUseCase.execute [demoSocialUser, demoLocalActiveUser] "a@b.com" "pw"
        (fun _ => true) (fun p h => p == h) =
      Except.error LoginError.passwordValidationFailed := by
  have h := login_rejections_amended [demoSocialUser, demoLocalActiveUser]
  refine ⟨(h "zz@b.com" "Str0ng!Pass" (fun _ => true) (fun p h => p == h)
    (by decide) (by decide)).1 (by decide), ?_, ?_, ?_⟩
  · exact (h "s@b.com" "Str0ng!Pass" (fun _ => true) (fun p h => p == h)
      (by decide) (by decide)).2.1 demoSocialUser (by decide) (by decide)
  · exact (h "a@b.com" "Str0ng!Pass" (fun _ => true) (fun p h => p == h)
      (by decide) (by decide)).2.2.1 demoLocalActiveUser "oldhash" (by decide)
      (by decide) (by decide) (by decide)
  · exact (h "a@b.com" "pw" (fun _ => true) (fun p h => p == h) (by decide)
      (by decide)).2.2.2 demoLocalActiveUser "oldhash" (by decide) (by decide)
      (by decide)

/-- C4: round-trip of the token signer.  For any secret, claims, token id,
issue time and positive TTL, verifying before expiry returns the input
claims with the kind forced by the generator, and verifying at or after
expiry fails with `TokenExpiredError`; `verifyToken` is a pure function of
the token and the clock, so verification mutates no state. -/
theorem jwt_sign_verify_roundtrip :
    ∀ (secret : String) (p : TokenPayload) (jti : String) (now ttl nv : Nat),
      0 < ttl →
      (nv < now + ttl →
        JwtTokenService.verifyToken secret
            (JwtTokenService.generateAccessToken secret p jti now ttl) nv =
          Except.ok { p with type := "access" } ∧
        JwtTokenService.verifyToken secret
            (JwtTokenService.generateRefreshToken secret p jti now ttl) nv =
          Except.ok { p with type := "refresh" }) ∧
      (now + ttl ≤ nv →
        JwtTokenService.verifyToken secret
            (JwtTokenService.generateAccessToken secret p jti now ttl) nv =
          Except.error JwtError.tokenExpired ∧
        JwtTokenService.verifyToken secret
            (JwtTokenService.generateRefreshToken secret p jti now ttl) nv =
          Except.error JwtError.tokenExpired) := by
  intro secret p jti now ttl nv _
  constructor
  · intro hbefore
    constructor <;>
      simp [JwtTokenService.verifyToken, JwtTokenService.generateAccessToken,
        JwtTokenService.generateRefreshToken, jwtSign, jwtVerify,
        Nat.not_le.mpr hbefore]
  · intro hafter
    constructor <;>
      simp [JwtTokenService.verifyToken, JwtTokenService.generateAccessToken,
        JwtTokenService.generateRefreshToken, jwtSign, jwtVerify, hafter]

/-- C4 witness: concrete round-trip before expiry and expiry failure after. -/
theorem jwt_sign_verify_roundtrip_witness :
    JwtTokenService.verifyToken "sec"
        (JwtTokenService.generateAccessToken "sec"
          { sub := "u1", email := "a@b.com", type := "x" } "j1" 100 60) 130 =
      Except.ok { sub := "u1", email := "a@b.com", type := "access" } ∧
    JwtTokenService.verifyToken "sec"
        (JwtTokenService.generateRefreshToken "sec"
          { sub := "u1", email := "a@b.com", type := "x" } "j1" 100 60) 160 =
      Except.error JwtError.tokenExpired := by
  exact ⟨((jwt_sign_verify_roundtrip "sec"
      { sub := "u1", email := "a@b.com", type := "x" } "j1" 100 60 130
      (by decide)).1 (by decide)).1,
    ((jwt_sign_verify_roundtrip "sec"
      { sub := "u1", email := "a@b.com", type := "x" } "j1" 100 60 160
      (by decide)).2 (by decide)).2⟩

/-- C1 evaluation: `RefreshTokenUseCase.execute` consults no token store,
so presenting the same still-valid refresh token a second time (here at a
later clock, with fresh token ids for the new pair) succeeds again and is
issued a second valid pair; nothing is marked used or deleted because the
use case has no store to write to. -/
theorem refresh_replay_succeeds_twice :
    (RefreshTokenUseCase.execute [demoLocalActiveUser] "sec" demoRefreshTok 10
      "j1" "j2" 3600 604800).isOk = true ∧
    (RefreshTokenUseCase.execute [demoLocalActiveUser] "sec" demoRefreshTok 20
      "j3" "j4" 3600 604800).isOk = true := by
  refine ⟨by decide, by decide⟩

/-- The legacy `AuthUseCase.refreshToken` flow does consume: when the
presented refresh value identifies a unique stored record and the freshly
generated refresh value differs from the presented one, a second rotation
presenting the same value after a successful first rotation returns null. -/
theorem legacy_rotation_consumes :
    ∀ (store : List TokenData) (presented : String) (now : Nat)
      (newAccess newRefresh : String) (td : TokenData)
      (store' : List TokenData),
      AuthUseCase.refreshToken store presented now newAccess newRefresh =
        some (td, store') →
      newRefresh ≠ presented →
      (∀ x ∈ store, ∀ y ∈ store, x.refreshToken = presented →
        y.refreshToken = presented → x = y) →
      ∀ (now2 : Nat) (a2 r2 : String),
        AuthUseCase.refreshToken store' presented now2 a2 r2 = none := by
  intro store presented now newAccess newRefresh td store' h hfresh huniq
    now2 a2 r2
  unfold AuthUseCase.refreshToken at h
  split at h
  · exact Option.noConfusion h
  next token hfind =>
  split at h
  · exact Option.noConfusion h
  have hstore : store' = deleteByAccessToken store token.accessToken ++
      [{ accessToken := newAccess,
         accessTokenExpiresAt := now + 60 * 60 * 1000,
         refreshToken := newRefresh,
         refreshTokenExpiresAt := now + 30 * 24 * 60 * 60 * 1000,
         clientId := token.clientId, userId := token.userId,
         scope := token.scope }] := by
    have := congrArg (fun p => p.2) (Option.some.inj h)
    simpa [AuthUseCase.generateTokens] using this.symm
  have htok := List.find?_some hfind
  have htokmem := List.mem_of_find?_eq_some hfind
  have htokval : token.refreshToken = presented := by
    simpa using htok
  unfold AuthUseCase.refreshToken
  rw [findByRefreshToken, hstore]
  rw [List.find?_eq_none.mpr ?none]
  · intro x hx
    rcases List.mem_append.mp hx with hx | hx
    · obtain ⟨hxmem, hxkeep⟩ := List.mem_filter.mp hx
      intro hxval
      have hxval' : x.refreshToken = presented := by simpa using hxval
      have := huniq x hxmem token htokmem hxval' htokval
      subst this
      simp at hxkeep
    · intro hxval
      rcases List.mem_singleton.mp hx with rfl
      have : newRefresh = presented := by simpa using hxval
      exact hfresh this

/-- C5 evaluation: a record whose window elapsed at time 1000 is still
counted against at time 1001 (because the middleware refreshes only when
`resetTime <= now - windowMs`): with the auth policy (15-minute window,
max 5), the request is rejected with `Retry-After` computed as 0, not
admitted as a fresh key, while the middleware's own cleanup sweep at the
same instant classifies that record as expired and deletes it. -/
theorem rate_limit_stale_window_eval :
    RateLimitMiddleware.check demoRateStore "k" 900000 5 1001 =
      (RateOutcome.rejected 0, [("k", { count := 6, resetTime := 1000 })]) ∧
    ¬ (0 : Int) > 0 ∧
    RateLimitMiddleware.cleanupExpiredEntries demoRateStore 1001 = [] := by
  refine ⟨by decide, by decide, by decide⟩

/-- C7 counterexample: the status machine admits more than the two spec
transitions: `suspend()` has no status guard, so a pending account moves
directly to suspended, a transition outside the spec list. -/
theorem status_machine_counterexample : ¬ statusMachineOnlySpec := by
  intro h
  have := h demoPendingUser UserOp.suspend demoPendingUser.suspend rfl
    (by decide)
  revert this
  decide

/-- C7 amended: every status change performed by a core operation is
either a move to suspended via `suspend` (admitted from any status, not
only from active) or the pending-to-active activation performed by
`verifyEmail` or by a direct `activate`; verifying the email of a pending
account makes it active; and no operation moves a suspended account to any
other status (`activate` fails on it and everything else leaves it
suspended). -/
theorem status_machine_amended :
    (∀ (u : User) (op : UserOp) (u' : User),
        u.applyOp op = Except.ok u' → u'.status ≠ u.status →
        (u'.status = UserStatus.suspended ∧ op = UserOp.suspend) ∨
        (u.status = UserStatus.pending ∧ u'.status = UserStatus.active ∧
          (op = UserOp.verifyEmail ∨ op = UserOp.activate))) ∧
    (∀ (u : User) (op : UserOp) (u' : User),
        u.status = UserStatus.suspended → u.applyOp op = Except.ok u' →
        u'.status = UserStatus.suspended) ∧
    (∀ u : User, u.status = UserStatus.pending →
        u.verifyEmail =
          Except.ok { u with emailVerified := true,
                             status := UserStatus.active }) := by
  refine ⟨?_, ?_, ?_⟩
  · intro u op u' hok hchange
    cases op with
    | activate =>
      simp only [User.applyOp, User.activate] at hok
      split at hok
      · exact Except.noConfusion hok
      next hsusp =>
        right
        have hu' := Except.ok.inj hok
        subst hu'
        refine ⟨?_, rfl, Or.inr rfl⟩
        cases hu : u.status with
        | pending => rfl
        | active => exact absurd (hu ▸ rfl) hchange
        | suspended => exact absurd hu hsusp
    | suspend =>
      simp only [User.applyOp] at hok
      have hu' := Except.ok.inj hok
      subst hu'
      exact Or.inl ⟨rfl, rfl⟩
    | verifyEmail =>
      simp only [User.applyOp, User.verifyEmail] at hok
      split at hok
      next hpend =>
        simp only [User.activate] at hok
        split at hok
        · exact Except.noConfusion hok
        · have hu' := Except.ok.inj hok
          subst hu'
          right
          exact ⟨by simpa using hpend, rfl, Or.inl rfl⟩
      next hpend =>
        have hu' := Except.ok.inj hok
        subst hu'
        exact absurd rfl hchange
    | updateLastLogin n =>
      simp only [User.applyOp] at hok
      have hu' := Except.ok.inj hok
      subst hu'
      exact absurd rfl hchange
    | updatePassword hsh =>
      simp only [User.applyOp] at hok
      have hu' := Except.ok.inj hok
      subst hu'
      exact absurd rfl hchange
    | updateProfile f l =>
      simp only [User.applyOp] at hok
      have hu' := Except.ok.inj hok
      subst hu'
      exact absurd rfl hchange
  · intro u op u' hsusp hok
    cases op with
    | activate =>
      simp only [User.applyOp, User.activate] at hok
      rw [if_pos hsusp] at hok
      exact Except.noConfusion hok
    | suspend =>
      simp only [User.applyOp] at hok
      have hu' := Except.ok.inj hok
      subst hu'
      rfl
    | verifyEmail =>
      simp only [User.applyOp, User.verifyEmail] at hok
      rw [if_neg (by simp [hsusp])] at hok
      have hu' := Except.ok.inj hok
      subst hu'
      exact hsusp
    | updateLastLogin n =>
      simp only [User.applyOp] at hok
      have hu' := Except.ok.inj hok
      subst hu'
      exact hsusp
    | updatePassword hsh =>
      simp only [User.applyOp] at hok
      have hu' := Except.ok.inj hok
      subst hu'
      exact hsusp
    | updateProfile f l =>
      simp only [User.applyOp] at hok
      have hu' := Except.ok.inj hok
      subst hu'
      exact hsusp
  · intro u hpend
    simp [User.verifyEmail, User.activate, hpend]

/-- C7 amended witness: `verifyEmail` on a concrete suspended account
succeeds and leaves it suspended, and on a concrete pending account
activates it. -/
theorem status_machine_amended_witness :
    (demoSuspendedUser.applyOp UserOp.verifyEmail =
      Except.ok { demoSuspendedUser with emailVerified := true }) ∧
    ({ demoSuspendedUser with emailVerified := true } : User).status =
      UserStatus.suspended ∧
    demoPendingUser.verifyEmail =
      Except.ok { demoPendingUser with
                  emailVerified := true, status := UserStatus.active } :=
  ⟨by decide,
   status_machine_amended.2.1 demoSuspendedUser UserOp.verifyEmail
     { demoSuspendedUser with emailVerified := true } (by decide) (by decide),
   status_machine_amended.2.2 demoPendingUser (by decide)⟩

/-- A clamped random pick stays inside its character class. -/
theorem pickChar_mem (chars : List Char) (r : Nat) (h : chars ≠ []) :
    pickChar chars r ∈ chars := by
  unfold pickChar
  rw [dif_neg (by simpa using List.length_pos.mpr h |>.ne.symm)]
  exact List.get_mem ..

/-- C9: whatever the random draws and whatever permutation the final
shuffle applies, for every requested length at least 4 the generated
password has exactly the requested length and contains at least one
uppercase letter, one lowercase letter, one digit and one symbol. -/
theorem generate_password_spec :
    ∀ (len : Nat) (draws : Nat → Nat) (shuffled : List Char),
      4 ≤ len →
      (CryptoUtils.generatePasswordBase len draws).Perm shuffled →
      shuffled.length = len ∧
      (∃ c ∈ shuffled, c ∈ upperChars) ∧
      (∃ c ∈ shuffled, c ∈ lowerChars) ∧
      (∃ c ∈ shuffled, c ∈ digitChars) ∧
      (∃ c ∈ shuffled, c ∈ specialChars) := by
  intro len draws shuffled hlen hperm
  have hbase : (CryptoUtils.generatePasswordBase len draws).length = len := by
    unfold CryptoUtils.generatePasswordBase
    simp only [List.length_append, List.length_map, List.length_range,
      List.length_cons, List.length_nil]
    omega
  refine ⟨by rw [← hperm.length_eq, hbase], ?_, ?_, ?_, ?_⟩
  · exact ⟨pickChar upperChars (draws 0),
      hperm.mem_iff.mp (by simp [CryptoUtils.generatePasswordBase]),
      pickChar_mem _ _ (by decide)⟩
  · exact ⟨pickChar lowerChars (draws 1),
      hperm.mem_iff.mp (by simp [CryptoUtils.generatePasswordBase]),
      pickChar_mem _ _ (by decide)⟩
  · exact ⟨pickChar digitChars (draws 2),
      hperm.mem_iff.mp (by simp [CryptoUtils.generatePasswordBase]),
      pickChar_mem _ _ (by decide)⟩
  · exact ⟨pickChar specialChars (draws 3),
      hperm.mem_iff.mp (by simp [CryptoUtils.generatePasswordBase]),
      pickChar_mem _ _ (by decide)⟩

/-- C9 witness: the identity shuffle of a length-4 password drawn with all
draws 0 has length 4 and one character from each class. -/
theorem generate_password_spec_witness :
    (CryptoUtils.generatePasswordBase 4 (fun _ => 0)).length = 4 ∧
    (∃ c ∈ CryptoUtils.generatePasswordBase 4 (fun _ => 0), c ∈ upperChars) ∧
    (∃ c ∈ CryptoUtils.generatePasswordBase 4 (fun _ => 0), c ∈ lowerChars) ∧
    (∃ c ∈ CryptoUtils.generatePasswordBase 4 (fun _ => 0), c ∈ digitChars) ∧
    (∃ c ∈ CryptoUtils.generatePasswordBase 4 (fun _ => 0), c ∈ specialChars) :=
  generate_password_spec 4 (fun _ => 0)
    (CryptoUtils.generatePasswordBase 4 (fun _ => 0)) (by decide)
    (List.Perm.refl _)

end OAuthModel
